import Mathlib

/-!
Verification of the synthetic-glucose core of the insulin-pump teaching
application (`pump_therapy_app.py`): the trace generator
`generate_glucose_data`, the metrics engine `calculate_glucose_metrics`,
the adjustment-outcome classification, the settings-proposal validation,
and the week-progression state machine.

Machine floats are modelled as exact rationals; the numpy global random
generator is modelled as an explicit `(seed, counter)` state together with
an abstract draw stream `NoiseFun`, so that `np.random.normal(mu, sigma)`
becomes `mu + sigma * draw` and `np.random.random()` becomes `draw`, each
draw advancing the counter.  A float NaN (only the `cv` metric can be NaN
on a non-empty trace) is modelled by `Option.none`.
-/

namespace PumpTherapy

/-- Meal labels: the keys of the `ic_ratios` mapping in the source. -/
inductive Meal where
  | breakfast
  | lunch
  | dinner
deriving DecidableEq, BEq

/-- Scenario tags appearing in the source (`issues` entries / patient
`scenario` fields); `otherIssue` stands for tags that match no branch of
the perturbation chain (e.g. `pregnancy_planning`, `adolescent_management`). -/
inductive Issue where
  | dawn_phenomenon
  | afternoon_lows
  | post_meal_spikes
  | nocturnal_lows
  | hypoglycemia_unawareness
  | exercise_management
  | otherIssue
deriving DecidableEq

/-- State of numpy's global random generator: which seed it was last seeded
with and how many draws have been consumed since. -/
structure RngState where
  seed : ℕ
  ctr : ℕ
deriving DecidableEq

/-- Abstract random stream: value of the draw at position `ctr` of the
stream produced by seed `seed`.  Universally quantified in theorems; fixing
it to the constant zero function models "noise fixed to 0". -/
abbrev NoiseFun := ℕ → ℕ → ℚ

/-- `np.random.seed(s)` — discards the previous generator state. -/
def npRandomSeed (s : ℕ) (_ : RngState) : RngState := ⟨s, 0⟩

/-- One draw from the global generator, advancing the counter. -/
def npDraw (f : NoiseFun) (st : RngState) : ℚ × RngState :=
  (f st.seed st.ctr, ⟨st.seed, st.ctr + 1⟩)

/-- The zero-noise stream (every Gaussian/uniform draw returns 0). -/
def zeroNoise : NoiseFun := fun _ _ => 0

/-- Diurnal bucket mean (source lines 146-155). -/
def diurnalMean (hour : ℕ) : ℚ :=
  if 6 ≤ hour ∧ hour ≤ 8 then 140
  else if 12 ≤ hour ∧ hour ≤ 14 then 160
  else if 18 ≤ hour ∧ hour ≤ 20 then 150
  else if 2 ≤ hour ∧ hour ≤ 4 then 95
  else 120

/-- Diurnal bucket Gaussian standard deviation (source lines 146-155). -/
def diurnalSd (hour : ℕ) : ℚ :=
  if 6 ≤ hour ∧ hour ≤ 8 then 15
  else if 12 ≤ hour ∧ hour ≤ 14 then 20
  else if 18 ≤ hour ∧ hour ≤ 20 then 18
  else if 2 ≤ hour ∧ hour ≤ 4 then 10
  else 12

/-- The index expression `hour//7 if hour < 14 else (1 if hour < 17 else 2)`
of source line 175. -/
def mealIndex (hour : ℕ) : ℕ :=
  if hour < 14 then hour / 7 else if hour < 17 then 1 else 2

/-- `['breakfast', 'lunch', 'dinner'][mealIndex hour]` (source line 175). -/
def mealKey (hour : ℕ) : Meal :=
  [Meal.breakfast, Meal.lunch, Meal.dinner].getD (mealIndex hour) Meal.breakfast

/-- One sample of the generator body (source lines 137-184), before the
final clamp: timestamp index `i` (5-minute cadence from midnight), threading
the random-generator state. -/
def rawSample (f : NoiseFun) (basal : List ℚ) (issues : List Issue)
    (ic : List (Meal × ℚ)) (cf : ℚ) (week : ℕ) (i : ℕ) (st : RngState) :
    ℚ × RngState :=
  let hour := i * 5 / 60 % 24
  let minute := i * 5 % 60
  let basalEffect := basal.getD hour 0 * 50
  let d1 := npDraw f st
  let base0 := diurnalMean hour + diurnalSd hour * d1.1 - basalEffect
  let st1 := d1.2
  let step2 : ℚ × RngState :=
    if issues ≠ [] ∧ week < 4 then
      if Issue.dawn_phenomenon ∈ issues ∧ 4 ≤ hour ∧ hour ≤ 7 then
        (base0 + max 0 (40 - 10 * (week : ℚ)), st1)
      else if Issue.afternoon_lows ∈ issues ∧ 14 ≤ hour ∧ hour ≤ 16 then
        (base0 - max 0 (30 - 7 * (week : ℚ)), st1)
      else if Issue.post_meal_spikes ∈ issues ∧ (hour = 13 ∨ hour = 19) then
        (base0 + max 20 (80 - (if ic ≠ [] then 15 * (week : ℚ) else 0)), st1)
      else if Issue.nocturnal_lows ∈ issues ∧ 1 ≤ hour ∧ hour ≤ 3 then
        (base0 - max 0 (25 - 6 * (week : ℚ)), st1)
      else if Issue.hypoglycemia_unawareness ∈ issues then
        let d2 := npDraw f st1
        (if d2.1 < 1/20 then base0 - 40 else base0, d2.2)
      else (base0, st1)
    else (base0, st1)
  let base1 := step2.1
  let st2 := step2.2
  if minute = 0 ∧ (hour = 7 ∨ hour = 12 ∨ hour = 18) then
    let d3 := npDraw f st2
    let mealCarbs := 45 + 15 * d3.1
    let st3 := d3.2
    if ic ≠ [] then
      match ic.lookup (mealKey hour) with
      | some r => (base1 + 80 - mealCarbs / r * cf, st3)
      | none => (base1 + 60, st3)
    else (base1 + 60, st3)
  else (base1, st2)

/-- `max(40, min(400, base_glucose))` (source line 186). -/
def clampGlucose (x : ℚ) : ℚ := max 40 (min 400 x)

/-- The generator loop: `n` samples starting at timestamp index `i`,
clamping each sample and threading the random state. -/
def genFrom (f : NoiseFun) (basal : List ℚ) (issues : List Issue)
    (ic : List (Meal × ℚ)) (cf : ℚ) (week : ℕ) : ℕ → ℕ → RngState → List ℚ
  | _, 0, _ => []
  | i, n + 1, st =>
      clampGlucose (rawSample f basal issues ic cf week i st).1 ::
        genFrom f basal issues ic cf week (i + 1) n
          (rawSample f basal issues ic cf week i st).2

/-- `generate_glucose_data(days, basal_rates, issues, ic_ratios,
correction_factor, week)` (source lines 126-192): reseeds the global
generator with `42 + week`, then produces `days * 288` clamped samples at
5-minute cadence.  `st` is the ambient generator state before the call;
Python defaults are `days=7`, `basal_rates=[0.8]*24` (via `None`),
`issues=[]`, `ic_ratios=[]` (via `None`), `cf=50`, `week=0`. -/
def generate_glucose_data (f : NoiseFun) (days : ℕ) (basal : List ℚ)
    (issues : List Issue) (ic : List (Meal × ℚ)) (cf : ℚ) (week : ℕ)
    (st : RngState) : List ℚ :=
  genFrom f basal issues ic cf week 0 (days * 288) (npRandomSeed (42 + week) st)

/-- Errors observable from `calculate_glucose_metrics`.  `zeroDivision`
models Python's built-in `ZeroDivisionError`; `invalidInput` models the
`InvalidInputError` named by the specification (no such error class exists
anywhere in the source). -/
inductive PyError where
  | zeroDivision
  | invalidInput
deriving DecidableEq

/-- The record built by `calculate_glucose_metrics` (source lines 422-432).
`cv_sq` is the square of the source's `cv`: the source computes
`cv = df.std() / mean * 100` where `.std()` (sample estimator, `ddof = 1`)
is the square root of `sampleVar`; squaring avoids an irrational square
root while preserving exactly when the value is NaN (`none`), since
`sqrt` is NaN-preserving and defined on the non-negative variance. -/
structure GlucoseMetrics where
  time_in_range : ℚ
  time_below_70 : ℚ
  time_above_180 : ℚ
  mean_glucose : ℚ
  gmi : ℚ
  cv_sq : Option ℚ
deriving DecidableEq

/-- The sample variance with `n - 1` divisor used by pandas `.std()`
(`ddof = 1`); NaN (`none`) when fewer than two samples. -/
def sampleVar (vs : List ℚ) : Option ℚ :=
  if vs.length < 2 then none
  else
    some (((vs.map fun v => (v - vs.sum / vs.length) ^ 2).sum) /
      ((vs.length : ℚ) - 1))

/-- `calculate_glucose_metrics(df)` (source lines 422-432).  The first
statement divides by `len(df)`, so an empty trace raises
`ZeroDivisionError` before anything else happens. -/
def calculate_glucose_metrics (vs : List ℚ) : Except PyError GlucoseMetrics :=
  if vs.length = 0 then .error .zeroDivision
  else
    let n : ℚ := vs.length
    let mean := vs.sum / n
    .ok
      { time_in_range := (vs.countP fun v => decide (70 ≤ v ∧ v ≤ 180)) / n * 100
        time_below_70 := (vs.countP fun v => decide (v < 70)) / n * 100
        time_above_180 := (vs.countP fun v => decide (180 < v)) / n * 100
        mean_glucose := mean
        gmi := 331 / 100 + 2392 / 100000 * mean
        cv_sq := (sampleVar vs).map fun s2 => s2 / (mean * mean) * 10000 }

/-- The three feedback classes of the adjustment feedback block
(source lines 828-853). -/
inductive Verdict where
  | excellent
  | good
  | noneOrNegative
deriving DecidableEq

/-- Classification of `tir_improvement = new_tir - old_tir`
(source lines 828-853): `> 5` excellent, `elif > 0` good, else the
none-or-negative warning branch. -/
def classify_tir_improvement (d : ℚ) : Verdict :=
  if d > 5 then .excellent else if d > 0 then .good else .noneOrNegative

/-- Therapy settings as stored in the patient records
(`original_settings` / `current_settings`, source lines 207-220). -/
structure TherapySettings where
  basal_profile : List ℚ
  ic_ratios : List (Meal × ℚ)
  correction_factor : ℚ
  target_glucose : ℚ
deriving DecidableEq

/-- A patient's settings pair: the source mutates only
`current_settings`; `original_settings` is never written after creation. -/
structure Patient where
  original_settings : TherapySettings
  current_settings : TherapySettings
deriving DecidableEq

/-- A rejected settings proposal, naming the offending field. -/
inductive ValidationError where
  | outOfRange (field : String)
deriving DecidableEq

/-- Modelled from the spec: the per-field range validation of a proposed
settings value.  The source delegates enforcement to the external
`st.number_input` widgets and contains no validation code of its own; the
bounds are the source's declared `min_value`/`max_value` arguments
(correction factor 20..100, source lines 556-563), and the spec requires
an out-of-range value to be "rejected with a `ValidationError` naming the
offending field, not silently clamped". -/
def validateRange (field : String) (lo hi x : ℚ) : Except ValidationError ℚ :=
  if lo ≤ x ∧ x ≤ hi then .ok x else .error (.outOfRange field)

/-- The correction-factor tab of `create_adjustment_interface`
(source lines 553-566): a validated new value is written into
`current_settings.correction_factor` only; `original_settings` is not
touched.  Validation is `validateRange` with the declared bounds 20..100. -/
def propose_correction_factor (p : Patient) (x : ℚ) :
    Except ValidationError Patient :=
  (validateRange "correction_factor" 20 100 x).map fun v =>
    { p with current_settings :=
        { p.current_settings with correction_factor := v } }

/-- The "Advance to Next Week" transition (source lines 861-868):
`current_week` increments only while `current_week < total_weeks - 1 = 11`;
at 11 it stays (journey completion). -/
def advance_week (w : ℤ) : ℤ := if w < 11 then w + 1 else w

/-- The "Review Previous Week" transition (source lines 870-874): the
button is rendered only when `current_week > 0`, and then decrements. -/
def review_previous_week (w : ℤ) : ℤ := if 0 < w then w - 1 else w

/-- Weeks reachable from the initial `current_week = 0` using only the two
transitions the source provides. -/
inductive ReachableWeek : ℤ → Prop where
  | init : ReachableWeek 0
  | advance {w : ℤ} : ReachableWeek w → ReachableWeek (advance_week w)
  | review {w : ℤ} : ReachableWeek w → ReachableWeek (review_previous_week w)

/-- Sarah Chen's basal profile (source lines 208-209), exact rationals. -/
def sarahBasal : List ℚ :=
  [8/10, 6/10, 5/10, 5/10, 9/10, 12/10, 1, 8/10, 7/10, 7/10, 8/10, 9/10,
   1, 8/10, 7/10, 6/10, 8/10, 11/10, 1, 9/10, 8/10, 8/10, 8/10, 8/10]

/-- Sarah Chen's I:C ratios (source line 210). -/
def sarahIC : List (Meal × ℚ) :=
  [(Meal.breakfast, 12), (Meal.lunch, 15), (Meal.dinner, 10)]

/-- An all-zero basal profile (used to isolate the meal-bolus term). -/
def zeroBasal : List ℚ := List.replicate 24 0

/-- The Python default `basal_rates = [0.8] * 24` (source line 135). -/
def defaultBasal : List ℚ := List.replicate 24 (8/10)

/-- Sarah Chen's settings record (source lines 207-213). -/
def sarahSettings : TherapySettings :=
  { basal_profile := sarahBasal
    ic_ratios := sarahIC
    correction_factor := 50
    target_glucose := 110 }

/-- Sarah Chen's patient record: original and current settings both start
as the same baseline (source lines 207-220). -/
def sarahPatient : Patient :=
  { original_settings := sarahSettings, current_settings := sarahSettings }

/-- Sarah's record after an accepted correction-factor proposal of 55. -/
def sarahAdjusted : Patient :=
  { sarahPatient with current_settings :=
      { sarahPatient.current_settings with correction_factor := 55 } }

end PumpTherapy

namespace PumpTherapy

/-- The clamp keeps every value between 40 and 400. -/
theorem clampGlucose_bounds (x : ℚ) : 40 ≤ clampGlucose x ∧ clampGlucose x ≤ 400 :=
  ⟨le_max_left _ _, max_le (by norm_num) (min_le_left _ _)⟩

/-- Every sample produced by the generator loop is clamped, hence bounded. -/
theorem genFrom_bounds (f : NoiseFun) (basal : List ℚ) (issues : List Issue)
    (ic : List (Meal × ℚ)) (cf : ℚ) (week : ℕ) :
    ∀ (n i : ℕ) (st : RngState), ∀ v ∈ genFrom f basal issues ic cf week i n st,
      40 ≤ v ∧ v ≤ 400 := by
  intro n
  induction n with
  | zero => intro i st v hv; simp [genFrom] at hv
  | succ n ih =>
    intro i st v hv
    rw [genFrom] at hv
    rcases List.mem_cons.mp hv with h | h
    · subst h; exact clampGlucose_bounds _
    · exact ih (i + 1) _ v h

/-- Claim C4: for every `days ≥ 1`, every settings tuple (basal profile,
I:C ratios, correction factor), every scenario tag, every week index (and
every noise stream and incoming generator state), every sample value in
the trace returned by `generate_glucose_data` lies in [40, 400] mg/dL. -/
theorem generate_values_in_bounds (f : NoiseFun) (days : ℕ) (basal : List ℚ)
    (issues : List Issue) (ic : List (Meal × ℚ)) (cf : ℚ) (week : ℕ)
    (st : RngState) (_hdays : 1 ≤ days) :
    ∀ v ∈ generate_glucose_data f days basal issues ic cf week st,
      40 ≤ v ∧ v ≤ 400 := by
  intro v hv
  exact genFrom_bounds f basal issues ic cf week _ _ _ v hv

/-- The first sample of a default-settings, zero-noise, 1-day trace is
80 = 120 - 0.8·50 (a concrete member of a generated trace). -/
theorem mem_generate_first_sample :
    (80 : ℚ) ∈ generate_glucose_data zeroNoise 1 defaultBasal [] [] 50 0 ⟨0, 0⟩ := by
  with_unfolding_all decide

/-- Witness for C4: the bound theorem applied to the concrete sample 80 of
a concrete 1-day trace. -/
theorem generate_values_in_bounds_check :
    1 ≤ 1 ∧ (40 ≤ (80 : ℚ) ∧ (80 : ℚ) ≤ 400) :=
  ⟨le_refl 1,
   generate_values_in_bounds zeroNoise 1 defaultBasal [] [] 50 0 ⟨0, 0⟩ (le_refl 1)
     80 mem_generate_first_sample⟩

/-- Claim C5: for fixed arguments, two calls of `generate_glucose_data`
yield identical traces regardless of the ambient random-generator state on
entry, because the function starts by reseeding with `42 + week`: the
trace is a deterministic function of its argument tuple. -/
theorem generate_deterministic (f : NoiseFun) (days : ℕ) (basal : List ℚ)
    (issues : List Issue) (ic : List (Meal × ℚ)) (cf : ℚ) (week : ℕ)
    (st1 st2 : RngState) :
    generate_glucose_data f days basal issues ic cf week st1 =
      generate_glucose_data f days basal issues ic cf week st2 := rfl

/-- Claim C1 (code bug, evaluation at the failing input): the source's
index expression maps hour 7 to `lunch`, not `breakfast`; with zero noise,
zero basal rate, Sarah's I:C ratios {breakfast 12, lunch 15, dinner 10}
and correction factor 50, the hour-7 meal sample (index 84) is
140 + 80 - (45/15)·50 = 70, i.e. computed with the lunch ratio 15, whereas
the breakfast ratio 12 claimed for hour 7 would give
clamp(140 + 80 - (45/12)·50) = 40. -/
theorem meal_hour7_uses_lunch_ratio :
    mealKey 7 = Meal.lunch ∧
    (generate_glucose_data zeroNoise 1 zeroBasal [] sarahIC 50 0 ⟨0, 0⟩).get? 84 =
      some 70 ∧
    clampGlucose (140 + 80 - 45 / 12 * 50) = 40 :=
  ⟨rfl, by with_unfolding_all rfl, by with_unfolding_all rfl⟩

/-- Claim C3 counterexample: at the claim's own input (zero noise,
`basal_profile[5] = 1.2` via Sarah's profile, scenario `dawn_phenomenon`,
week 0, hour 5, minute 5), the generated sample is not 120 mg/dL. -/
theorem dawn_hour5_sample_ne_120 :
    (generate_glucose_data zeroNoise 1 sarahBasal [Issue.dawn_phenomenon] sarahIC
        50 0 ⟨0, 0⟩).get? 61 ≠ some 120 := by
  with_unfolding_all decide

/-- Claim C3 as amended: at that input the sample is 100 mg/dL — hour 5
falls in the default diurnal bucket (mean 120, not the 140 of hours 6-8),
so the value is 120 - 1.2·50 = 60 plus the decay term max(0, 40 - 0) = 40. -/
theorem dawn_hour5_sample_eq_100 :
    (generate_glucose_data zeroNoise 1 sarahBasal [Issue.dawn_phenomenon] sarahIC
        50 0 ⟨0, 0⟩).get? 61 = some 100 := by
  with_unfolding_all rfl

/-- Claim C2 counterexample: on an empty trace the metrics engine does not
signal the spec's `InvalidInputError`. -/
theorem empty_trace_not_invalid_input :
    calculate_glucose_metrics [] ≠ Except.error PyError.invalidInput := by
  simp [calculate_glucose_metrics]

/-- Claim C2 as amended: on an empty trace the metrics engine fails with
an (uncaught) division-by-zero error — `len(df[...]) / len(df)` raises
`ZeroDivisionError` — rather than silently producing NaN. -/
theorem empty_trace_zero_division :
    calculate_glucose_metrics [] = Except.error PyError.zeroDivision := rfl

/-- The predicates `v < 70`, `70 ≤ v ≤ 180` and `v > 180` partition the
value space, so their counts sum to the trace length. -/
theorem countP_glucose_partition (vs : List ℚ) :
    (vs.countP fun v => decide (70 ≤ v ∧ v ≤ 180)) +
      (vs.countP fun v => decide (v < 70)) +
      (vs.countP fun v => decide (180 < v)) = vs.length := by
  induction vs with
  | nil => simp
  | cons v t ih =>
    simp only [List.countP_cons, decide_eq_true_eq, List.length_cons]
    rcases lt_or_le v 70 with h1 | h1
    · rw [if_neg (fun hc => absurd hc.1 (not_le.mpr h1)), if_pos h1,
        if_neg (not_lt.mpr (h1.le.trans (by norm_num)))]
      omega
    · rcases le_or_lt v 180 with h2 | h2
      · rw [if_pos ⟨h1, h2⟩, if_neg (not_lt.mpr h1), if_neg (not_lt.mpr h2)]
        omega
      · rw [if_neg (fun hc => absurd hc.2 (not_le.mpr h2)), if_neg (not_lt.mpr h1),
          if_pos h2]
        omega

/-- Claim C6: for every non-empty trace the metrics engine succeeds and
`time_in_range + time_below_70 + time_above_180 = 100` exactly (in exact
rational arithmetic), because the three range predicates partition the
value space. -/
theorem metrics_sum_to_100 (vs : List ℚ) (h : vs ≠ []) :
    ∃ m, calculate_glucose_metrics vs = Except.ok m ∧
      m.time_in_range + m.time_below_70 + m.time_above_180 = 100 := by
  have hn : vs.length ≠ 0 := by simpa [List.length_eq_zero] using h
  simp only [calculate_glucose_metrics, if_neg hn]
  refine ⟨_, rfl, ?_⟩
  have hq : ((vs.countP fun v => decide (70 ≤ v ∧ v ≤ 180)) : ℚ) +
      (vs.countP fun v => decide (v < 70)) +
      (vs.countP fun v => decide (180 < v)) = (vs.length : ℚ) := by
    exact_mod_cast countP_glucose_partition vs
  have hn2 : (vs.length : ℚ) ≠ 0 := Nat.cast_ne_zero.mpr hn
  dsimp only
  simp only [Bool.decide_and] at hq ⊢
  field_simp
  linarith [hq]

/-- Witness for C6: the partition identity on the one-sample trace [120]. -/
theorem metrics_sum_to_100_check :
    ∃ m, calculate_glucose_metrics [120] = Except.ok m ∧
      m.time_in_range + m.time_below_70 + m.time_above_180 = 100 :=
  metrics_sum_to_100 [120] (by simp)

/-- Claim C10: on a one-sample trace the metrics engine succeeds (no
error), the coefficient of variation is NaN (`none`) because the sample
standard deviation with `n - 1` divisor is undefined for n = 1, and the
mean (hence the other metrics, all total rational expressions in it and in
the counts) is finite — the mean equals the single sample value. -/
theorem single_sample_cv_nan (v : ℚ) :
    ∃ m, calculate_glucose_metrics [v] = Except.ok m ∧ m.cv_sq = none ∧
      m.mean_glucose = v := by
  have h1 : ([v] : List ℚ).length = 1 := rfl
  simp only [calculate_glucose_metrics, h1, sampleVar]
  norm_num

/-- Claim C7: with `Δtir = after - before`, the adjustment feedback
classifies `Δtir > 5` as excellent, `0 < Δtir ≤ 5` as good, and
`Δtir ≤ 0` as none-or-negative. -/
theorem classify_tir_thresholds (before after : ℚ) :
    (5 < after - before →
      classify_tir_improvement (after - before) = Verdict.excellent) ∧
    (0 < after - before ∧ after - before ≤ 5 →
      classify_tir_improvement (after - before) = Verdict.good) ∧
    (after - before ≤ 0 →
      classify_tir_improvement (after - before) = Verdict.noneOrNegative) := by
  unfold classify_tir_improvement
  refine ⟨fun h => ?_, fun h => ?_, fun h => ?_⟩
  · rw [if_pos h]
  · rw [if_neg (by linarith [h.2]), if_pos h.1]
  · rw [if_neg (by linarith), if_neg (by linarith)]

/-- Witness for C7: the spec's own examples — 60 → 68 gives excellent,
Δtir = 3 gives good, Δtir = -2 gives none-or-negative. -/
theorem classify_tir_thresholds_check :
    classify_tir_improvement (68 - 60) = Verdict.excellent ∧
    classify_tir_improvement (63 - 60) = Verdict.good ∧
    classify_tir_improvement (58 - 60) = Verdict.noneOrNegative :=
  ⟨(classify_tir_thresholds 60 68).1 (by norm_num),
   (classify_tir_thresholds 60 63).2.1 (by norm_num),
   (classify_tir_thresholds 60 58).2.2 (by norm_num)⟩

/-- Claim C8: proposing `correction_factor = 150` (outside the declared
range 20..100) is rejected with a `ValidationError` naming the field and
produces no settings record at all (in particular `original_settings` is
unchanged); an accepted proposal stores the value verbatim (no clamping)
and never touches `original_settings`. -/
theorem correction_factor_validation (p : Patient) :
    propose_correction_factor p 150 =
      Except.error (ValidationError.outOfRange "correction_factor") ∧
    ∀ x q, propose_correction_factor p x = Except.ok q →
      q.original_settings = p.original_settings ∧
      q.current_settings.correction_factor = x := by
  constructor
  · unfold propose_correction_factor validateRange
    rw [if_neg (by norm_num)]
    rfl
  · intro x q hq
    unfold propose_correction_factor validateRange at hq
    by_cases hx : (20 : ℚ) ≤ x ∧ x ≤ 100
    · rw [if_pos hx] at hq
      simp only [Except.map] at hq
      rw [Except.ok.injEq] at hq
      subst hq
      exact ⟨rfl, rfl⟩
    · rw [if_neg hx] at hq
      simp [Except.map] at hq

/-- Witness for C8: Sarah's record — the 150 proposal is rejected, and the
accepted proposal 55 yields exactly the record with only
`current_settings.correction_factor` changed. -/
theorem correction_factor_validation_check :
    propose_correction_factor sarahPatient 150 =
      Except.error (ValidationError.outOfRange "correction_factor") ∧
    (sarahAdjusted.original_settings = sarahPatient.original_settings ∧
      sarahAdjusted.current_settings.correction_factor = 55) :=
  ⟨(correction_factor_validation sarahPatient).1,
   (correction_factor_validation sarahPatient).2 55 sarahAdjusted
     (by with_unfolding_all rfl)⟩

/-- Claim C9: starting from week 0, with the only transitions being
advance (+1, clamped at 11) and review-previous (-1, clamped at 0), every
reachable `current_week` is an integer in [0, 11]. -/
theorem reachable_week_in_range (w : ℤ) (h : ReachableWeek w) :
    0 ≤ w ∧ w ≤ 11 := by
  induction h with
  | init => exact ⟨le_refl 0, by norm_num⟩
  | advance _ ih => unfold advance_week; split <;> omega
  | review _ ih => unfold review_previous_week; split <;> omega

/-- Witness for C9: the week reached by one advance from the initial state
is in range. -/
theorem reachable_week_in_range_check :
    (0 : ℤ) ≤ advance_week 0 ∧ advance_week 0 ≤ 11 :=
  reachable_week_in_range (advance_week 0)
    (ReachableWeek.advance ReachableWeek.init)

end PumpTherapy
